import Mathlib

/-!
Verification of the perceptual stimulus matching engine and its external
collaborators: a shallow embedding of `patched_find` from
`simulation/pyactrFunctionalityExtension.py`, of
`AgentTypeReturner._resolve_agent_classes` from
`simulation/AgentTypeReturner.py`, and of `build_level` from
`simulation/LevelBuilder.py`, together with theorems settling the spec
claims about them.
-/

namespace ActrSim

/-- Python-style attribute values as they occur in stimulus dictionaries and
extra-test maps of the visual module: strings, integers, booleans and pairs
(2-tuples, used for the `position` entry). -/
inductive PyVal where
  | str (s : String)
  | int (n : Int)
  | bool (b : Bool)
  | pair (a b : PyVal)
deriving DecidableEq, Repr

/-- An attribute set: a Python dict with string keys, kept in insertion
order. -/
abbrev AttrSet := List (String × PyVal)

/-- Decimal digit accumulation for `pyParseInt`: `none` on the empty digit
list or on any non-digit character. -/
def pyDigits : List Char → Option Nat
  | [] => none
  | cs => cs.foldl
      (fun acc c =>
        match acc with
        | none => none
        | some n => if 48 ≤ c.toNat && c.toNat ≤ 57 then some (n * 10 + (c.toNat - 48)) else none)
      (some 0)

/-- Python `int(string)`: an optional sign followed by decimal digits; any
other shape raises ValueError (modelled as `none`). -/
def pyParseInt (s : String) : Option Int :=
  match s.data with
  | '-' :: rest => (pyDigits rest).map fun n => -(n : Int)
  | '+' :: rest => (pyDigits rest).map fun n => (n : Int)
  | cs => (pyDigits cs).map fun n => (n : Int)

/-- Python `int(v)` as applied to a position component: ints pass through,
`int(True) = 1` and `int(False) = 0`, strings parse as signed decimal
numerals, tuples raise TypeError (modelled as `none`). -/
def pyToInt : PyVal → Option Int
  | .int n => some n
  | .bool b => some (if b then 1 else 0)
  | .str s => pyParseInt s
  | .pair _ _ => none

/-- Python subscripting `v[i]` as applied to the `position` value: pairs index
their two components, strings index their characters, out-of-range raises
IndexError and other values raise TypeError (both modelled as `none`). -/
def pyIndex : PyVal → Nat → Option PyVal
  | .pair a _, 0 => some a
  | .pair _ b, 1 => some b
  | .pair _ _, _ => none
  | .str s, i => if i < s.length then some (.str (String.mk ((s.data.drop i).take 1))) else none
  | _, _ => none

/-- Python membership test `attended_flag in (False, "False")` (line 95 of the
source), using Python equality: `False == False`, `0 == False` and the string
case `"False"`. -/
def isFalseLike : PyVal → Bool
  | .bool b => !b
  | .str s => s == "False"
  | .int n => n == 0
  | .pair _ _ => false

/-- Python dict update `d[k] = v`: an existing key keeps its place in
insertion order and gets the new value, a new key is appended at the end. -/
def dictSet (d : AttrSet) (k : String) (v : PyVal) : AttrSet :=
  if d.any (fun kv => kv.1 == k) then
    d.map (fun kv => if kv.1 == k then (k, v) else kv)
  else d ++ [(k, v)]

/-- The resolved visual-location query, i.e. `chunk_used_for_search`: the
fixed slots `value`, `screen_x`, `screen_y` (pyactr chunk slot values are
strings; `none` models an empty slot) plus the remaining constrained open
slots. -/
structure Query where
  value : Option String
  screen_x : Option String
  screen_y : Option String
  others : List (String × String)
deriving DecidableEq, Repr

/-- Modelled from the spec: a raw query slot before variable resolution
(section 4.1, VariableBinder, of the spec; the resolution itself is
`utilities.check_bound_vars` of the external pyactr library) -- empty, a
concrete value, or a variable reference. -/
inductive QSlot where
  | empty
  | val (s : String)
  | var (v : String)
deriving DecidableEq, Repr

/-- Modelled from the spec: VariableBinder resolution with
`negative_impossible = false` (section 4.1) -- a concrete value stands, an
unbound variable becomes the no-constraint marker (`none`) instead of
failing. -/
def resolveSlot (bindings : List (String × String)) : QSlot → Option String
  | .empty => none
  | .val s => some s
  | .var v => bindings.lookup v

/-- A query pattern as produced by the production RHS (`otherchunk`), before
variable resolution. -/
structure RawQuery where
  value : QSlot
  screen_x : QSlot
  screen_y : QSlot
  others : List (String × QSlot)
deriving DecidableEq, Repr

/-- Resolution of a whole query against the variable bindings
(`actrvariables`): open slots whose variable is unbound become unconstrained
and drop out of the constrained slot list. -/
def resolveQuery (bindings : List (String × String)) (rq : RawQuery) : Query where
  value := resolveSlot bindings rq.value
  screen_x := resolveSlot bindings rq.screen_x
  screen_y := resolveSlot bindings rq.screen_y
  others := rq.others.filterMap fun kv => (resolveSlot bindings kv.2).map fun s => (kv.1, s)

/-- Visual module state read by the search: `finst` (truthiness of
`self.finst`, i.e. whether the attention history is enabled) and `recent`
(the FINST attention history `self.recent`). -/
structure VisState where
  finst : Bool
  recent : List AttrSet
deriving DecidableEq, Repr

/-- The attended/FINST filter of lines 93-102 of the source: decides whether
the candidate stimulus is skipped, given `extra_tests.get("attended", None)`. -/
def attendSkip (attendedFlag : Option PyVal) (st : VisState) (stim : AttrSet) : Bool :=
  match attendedFlag with
  | none => false
  | some flag =>
    if isFalseLike flag then st.finst && decide (stim ∈ st.recent)
    else st.finst && !decide (stim ∈ st.recent)

/-- The text-value filter of lines 104-109: when the query value slot is
constrained, the candidate is skipped unless its `text` attribute equals it (a
missing or non-string `text` attribute never equals the string constraint). -/
def textSkip (q : Query) (stim : AttrSet) : Bool :=
  match q.value with
  | none => false
  | some v => stim.lookup "text" != some (.str v)

/-- One screen-coordinate constraint of lines 114-130: skip when the slot
value is truthy (a non-empty string) and parses to an integer different from
the actual component; an absent slot, an empty value, or a value whose
parsing raises (the swallowed TypeError / ValueError / AttributeError) imposes
no constraint. -/
def coordSkip : Option String → Int → Bool
  | none, _ => false
  | some s, actual =>
    if s.isEmpty then false
    else
      match pyParseInt s with
      | some n => n != actual
      | none => false

/-- Extraction of the pixel coordinates at line 112:
`(int(stim["position"][0]), int(stim["position"][1]))`; `none` models the
uncaught KeyError, IndexError, ValueError or TypeError. -/
def extractPosition (stim : AttrSet) : Option (Int × Int) :=
  match stim.lookup "position" with
  | none => none
  | some v =>
    match pyIndex v 0, pyIndex v 1 with
    | some a, some b =>
      match pyToInt a, pyToInt b with
      | some x, some y => some (x, y)
      | _, _ => none
    | _, _ => none

/-- The filtered record of lines 134-138: the stimulus attributes with the
reserved keys `position`, `text` and `vis_delay` removed. -/
def filteredAttrs (stim : AttrSet) : AttrSet :=
  stim.filter fun kv => kv.1 != "position" && kv.1 != "text" && kv.1 != "vis_delay"

/-- Modelled from the spec: the chunk subsumption test
`visible_chunk <= chunk_used_for_search` of line 146 lives in the external
pyactr library; following section 4.2 (CompatibilityMatcher) every open slot
constrained in the query must be present in the candidate with an equal
value, while the fixed `value` / `screen_x` / `screen_y` slots are enforced
by the dedicated text and coordinate filters (section 4.3, steps b and c). -/
def satisfies (cand : AttrSet) (q : Query) : Bool :=
  q.others.all fun kv => cand.lookup kv.1 == some (PyVal.str kv.2)

/-- The synthesized `_visuallocation` chunk of a successful match (lines
147-149): the filtered attributes with `screen_x` and `screen_y` set to the
extracted position. -/
def locRecord (stim : AttrSet) (pos : Int × Int) : AttrSet :=
  dictSet (dictSet (filteredAttrs stim) "screen_x" (.int pos.1)) "screen_y" (.int pos.2)

/-- Outcome of one iteration of the stimulus loop of `patched_find` on a
single candidate. -/
inductive CandOutcome where
  | skip
  | raise
  | passed
  | matched (pos : Int × Int)
deriving DecidableEq, Repr

/-- Whether the outcome is a successful compatibility match. -/
def CandOutcome.isMatched : CandOutcome → Bool
  | .matched _ => true
  | _ => false

/-- Whether the outcome is an uncaught exception from position extraction. -/
def CandOutcome.isRaise : CandOutcome → Bool
  | .raise => true
  | _ => false

/-- One iteration of the stimulus loop of `patched_find` (lines 90-150):
attention filter, text filter, position extraction, the two coordinate
filters, then the compatibility test. `passed` means the candidate passed
every filter (and therefore overwrote `found_stim`) but failed the
compatibility test. -/
def scanStep (q : Query) (att : Option PyVal) (st : VisState) (stim : AttrSet) : CandOutcome :=
  if attendSkip att st stim then .skip
  else if textSkip q stim then .skip
  else
    match extractPosition stim with
    | none => .raise
    | some pos =>
      if coordSkip q.screen_x pos.1 then .skip
      else if coordSkip q.screen_y pos.2 then .skip
      else if satisfies (filteredAttrs stim) q then .matched pos
      else .passed

/-- The uncaught exception of `patched_find` (KeyError / IndexError /
ValueError / TypeError from line 112). -/
inductive FindErr where
  | positionError
deriving DecidableEq, Repr

/-- The stimulus loop of `patched_find`, threading the `found_stim`
accumulator exactly as lines 87-152 of the source do: it is overwritten by
every candidate that passes all filters, and the loop breaks at the first
compatibility success. -/
def findLoop (q : Query) (att : Option PyVal) (st : VisState) :
    List AttrSet → Option AttrSet → Except FindErr (Option AttrSet × Option AttrSet)
  | [], foundStim => .ok (none, foundStim)
  | stim :: rest, foundStim =>
    match scanStep q att st stim with
    | .skip => findLoop q att st rest foundStim
    | .raise => .error .positionError
    | .passed => findLoop q att st rest (some stim)
    | .matched pos => .ok (some (locRecord stim pos), some stim)

/-- The patched `VisualLocation.find` of lines 49-152: resolve the query
against the variable bindings, then scan the stimulus store in enumeration
order, returning the first compatible match as
`(visuallocation_chunk, stimulus_dict)`. -/
def patched_find (otherchunk : RawQuery) (actrvariables : List (String × String))
    (extra_tests : List (String × PyVal)) (st : VisState) (store : List AttrSet) :
    Except FindErr (Option AttrSet × Option AttrSet) :=
  findLoop (resolveQuery actrvariables otherchunk) (extra_tests.lookup "attended") st store none

/-- The value of the `found_stim` accumulator after scanning `store` without
any compatibility success: the last stimulus that passed all filters, or the
initial accumulator if none did. -/
def lastPassed (q : Query) (att : Option PyVal) (st : VisState)
    (store : List AttrSet) (acc : Option AttrSet) : Option AttrSet :=
  store.foldl (fun a stim => if scanStep q att st stim == CandOutcome.passed then some stim else a) acc

/-- A Python class object, as far as the agent factory inspects it: its name
and its `__module__` attribute. -/
structure PyClass where
  cname : String
  cmodule : String
deriving DecidableEq, Repr

/-- A Python module, as far as the agent factory inspects it: its
`__name__` and its class-valued members (binding name and class object), in
the sorted order `inspect.getmembers` produces. -/
structure PyModule where
  mname : String
  members : List (String × PyClass)
deriving DecidableEq, Repr

/-- The import system visible to the factory: a map from fully qualified
module name to the module; a missing entry models an ImportError. -/
abbrev ModuleEnv := List (String × PyModule)

/-- `AgentTypeReturner._first_local_class` (lines 53-64 of
AgentTypeReturner.py): the first class member whose `__module__` is the
module itself, or `none`. -/
def first_local_class (m : PyModule) : Option PyClass :=
  (m.members.find? fun mem => mem.2.cmodule == m.mname).map (·.2)

/-- Python `getattr(module, attr, None)` restricted to class members. -/
def getattrMember (m : PyModule) (attr : String) : Option PyClass :=
  (m.members.find? fun mem => mem.1 == attr).map (·.2)

/-- The ValueError variants raised by `_resolve_agent_classes` (lines 92-125):
runner module import failure, adapter module import failure, or neither the
expected class nor a local fallback class being resolvable. -/
inductive ResolveError where
  | runnerImportError
  | adapterImportError
  | classNotFoundError
deriving DecidableEq, Repr

/-- The mutable state of an `AgentTypeReturner`: its base package and its
per-type-name cache of resolved class pairs. -/
structure AgentTypeReturner where
  base_package : String
  cache : List (String × (PyClass × PyClass))
deriving DecidableEq, Repr

/-- Class resolution with fallback (lines 110-118): `getattr` for the
expected class name, falling back to the first locally defined class when the
expected name is absent. -/
def resolveClass (m : PyModule) (expected : String) : Option PyClass :=
  match getattrMember m expected with
  | some c => some c
  | none => first_local_class m

/-- `AgentTypeReturner._resolve_agent_classes` (lines 66-128): cached lookup
plus module loading of `{base}.{name}` and `{base}.{name}Adapter`, `getattr`
for the expected class names with the fallback, raising ValueError
when a module import or both class resolutions fail; on success the pair is
cached and returned together with the updated state. -/
def resolve_agent_classes (env : ModuleEnv) (self : AgentTypeReturner) (name : String) :
    Except ResolveError ((PyClass × PyClass) × AgentTypeReturner) :=
  match self.cache.lookup name with
  | some pr => .ok (pr, self)
  | none =>
    match env.lookup (self.base_package ++ "." ++ name) with
    | none => .error .runnerImportError
    | some runnerModule =>
      match env.lookup (self.base_package ++ "." ++ name ++ "Adapter") with
      | none => .error .adapterImportError
      | some adapterModule =>
        match resolveClass runnerModule name, resolveClass adapterModule (name ++ "Adapter") with
        | some r, some a =>
          .ok ((r, a), { self with cache := self.cache ++ [(name, (r, a))] })
        | _, _ => .error .classNotFoundError

/-- `AgentTypeReturner.return_agent_type` (lines 134-174), up to the class
resolution step: the sentinel name `"Human"` yields no classes; any other
name resolves through `resolve_agent_classes` (the subsequent instantiation of
runner and adapter is outside the embedding). -/
def return_agent_type (env : ModuleEnv) (self : AgentTypeReturner) (name : String) :
    Except ResolveError (Option ((PyClass × PyClass) × AgentTypeReturner)) :=
  if name == "Human" then .ok none
  else (resolve_agent_classes env self name).map some

/-- The ValueError variants raised by `build_level` (lines 37-46 of
LevelBuilder.py): non-positive dimensions, or more agents than cells. -/
inductive LevelError where
  | invalidSize
  | capacityError
deriving DecidableEq, Repr

/-- Placement `matrix[r][c] = agent` on a row-major matrix; for the coordinate
lists produced by shuffling the grid coordinates the indices are always in
range (Python `random.Random.shuffle` permutes in place). -/
def setCell {α : Type} (m : List (List (Option α))) (r c : Nat) (a : α) :
    List (List (Option α)) :=
  m.set r ((m.getD r []).set c (some a))

/-- `build_level` (lines 5-59 of LevelBuilder.py): validate the dimensions and
the capacity, build an empty `height × width` matrix, shuffle the full list of
cell coordinates (the RNG is passed as the abstract permutation `shuffle`) and
place each agent on one of the first `len(agents)` shuffled cells. -/
def build_level {α : Type} (height width : Int) (agents : List α)
    (shuffle : List (Nat × Nat) → List (Nat × Nat)) :
    Except LevelError (List (List (Option α))) :=
  if height ≤ 0 ∨ width ≤ 0 then .error .invalidSize
  else if (agents.length : Int) > height * width then .error .capacityError
  else
    let matrix : List (List (Option α)) :=
      List.replicate height.toNat (List.replicate width.toNat none)
    let coords := (List.range height.toNat).flatMap fun r =>
      (List.range width.toNat).map fun c => (r, c)
    .ok ((agents.zip ((shuffle coords).take agents.length)).foldl
      (fun m ac => setCell m ac.2.1 ac.2.2 ac.1) matrix)

/-! ### Dictionary lookup lemmas -/

theorem lookup_cons_self (k : String) (v : PyVal) (t : AttrSet) :
    ((k, v) :: t).lookup k = some v := by
  simp [List.lookup]

theorem lookup_cons_ne (k k2 : String) (v : PyVal) (t : AttrSet) (h : k2 ≠ k) :
    ((k, v) :: t).lookup k2 = t.lookup k2 := by
  simp [List.lookup, beq_eq_false_iff_ne.mpr h]

theorem lookup_map_setKey_ne (t : AttrSet) (k k2 : String) (v : PyVal) (h : k2 ≠ k) :
    (t.map fun kv => if kv.1 == k then (k, v) else kv).lookup k2 = t.lookup k2 := by
  induction t with
  | nil => rfl
  | cons a t ih =>
    obtain ⟨a1, a2⟩ := a
    rw [List.map_cons]
    by_cases ha : a1 = k
    · subst ha
      simp only [beq_self_eq_true, if_true]
      rw [lookup_cons_ne _ _ _ _ h, lookup_cons_ne _ _ _ _ h]
      exact ih
    · simp only [beq_eq_false_iff_ne.mpr ha, Bool.false_eq_true, if_neg, not_false_iff]
      by_cases hk2 : k2 = a1
      · subst hk2
        rw [lookup_cons_self, lookup_cons_self]
      · rw [lookup_cons_ne _ _ _ _ hk2, lookup_cons_ne _ _ _ _ hk2]
        exact ih

theorem lookup_map_setKey_self (t : AttrSet) (k : String) (v : PyVal)
    (h : t.any (fun kv => kv.1 == k) = true) :
    (t.map fun kv => if kv.1 == k then (k, v) else kv).lookup k = some v := by
  induction t with
  | nil => simp at h
  | cons a t ih =>
    obtain ⟨a1, a2⟩ := a
    rw [List.map_cons]
    by_cases ha : a1 = k
    · subst ha
      simp only [beq_self_eq_true, if_true]
      rw [lookup_cons_self]
    · simp only [List.any_cons, Bool.or_eq_true, beq_iff_eq] at h
      rcases h with h | h
      · exact absurd h ha
      · simp only [beq_eq_false_iff_ne.mpr ha, Bool.false_eq_true, if_neg, not_false_iff]
        rw [lookup_cons_ne _ _ _ _ (Ne.symm ha)]
        exact ih h

theorem lookup_eq_none_of_not_any (t : AttrSet) (k : String)
    (h : t.any (fun kv => kv.1 == k) = false) : t.lookup k = none := by
  induction t with
  | nil => rfl
  | cons a t ih =>
    obtain ⟨a1, a2⟩ := a
    simp only [List.any_cons, Bool.or_eq_false_iff, beq_eq_false_iff_ne] at h
    rw [lookup_cons_ne _ _ _ _ (Ne.symm h.1)]
    exact ih h.2

theorem lookup_append_single_self (t : AttrSet) (k : String) (v : PyVal)
    (h : t.lookup k = none) : (t ++ [(k, v)]).lookup k = some v := by
  induction t with
  | nil => rw [List.nil_append, lookup_cons_self]
  | cons a t ih =>
    obtain ⟨a1, a2⟩ := a
    by_cases ha : k = a1
    · subst ha
      rw [lookup_cons_self] at h
      exact absurd h (by simp)
    · rw [List.cons_append, lookup_cons_ne _ _ _ _ ha]
      rw [lookup_cons_ne _ _ _ _ ha] at h
      exact ih h

theorem lookup_append_single_ne (t : AttrSet) (k k2 : String) (v : PyVal) (h : k2 ≠ k) :
    (t ++ [(k, v)]).lookup k2 = t.lookup k2 := by
  induction t with
  | nil => rw [List.nil_append, lookup_cons_ne _ _ _ _ h]
  | cons a t ih =>
    obtain ⟨a1, a2⟩ := a
    by_cases ha : k2 = a1
    · subst ha
      rw [List.cons_append, lookup_cons_self, lookup_cons_self]
    · rw [List.cons_append, lookup_cons_ne _ _ _ _ ha, lookup_cons_ne _ _ _ _ ha]
      exact ih

theorem lookup_dictSet_self (d : AttrSet) (k : String) (v : PyVal) :
    (dictSet d k v).lookup k = some v := by
  unfold dictSet
  cases h : d.any (fun kv => kv.1 == k) with
  | true => simp only [if_pos]; exact lookup_map_setKey_self d k v h
  | false =>
    simp only [Bool.false_eq_true, if_neg, not_false_iff]
    exact lookup_append_single_self d k v (lookup_eq_none_of_not_any d k h)

theorem lookup_dictSet_ne (d : AttrSet) (k k2 : String) (v : PyVal) (h : k2 ≠ k) :
    (dictSet d k v).lookup k2 = d.lookup k2 := by
  unfold dictSet
  cases hx : d.any (fun kv => kv.1 == k) with
  | true => simp only [if_pos]; exact lookup_map_setKey_ne d k k2 v h
  | false =>
    simp only [Bool.false_eq_true, if_neg, not_false_iff]
    exact lookup_append_single_ne d k k2 v h

theorem lookup_filter_none (d : AttrSet) (p : String × PyVal → Bool) (k : String)
    (h : ∀ v, p (k, v) = false) : (d.filter p).lookup k = none := by
  induction d with
  | nil => rfl
  | cons a t ih =>
    obtain ⟨a1, a2⟩ := a
    by_cases ha : a1 = k
    · subst ha
      rw [List.filter_cons_of_neg (by rw [h a2]; exact Bool.false_ne_true)]
      exact ih
    · cases hp : p (a1, a2)
      · rw [List.filter_cons_of_neg (by rw [hp]; exact Bool.false_ne_true)]
        exact ih
      · rw [List.filter_cons_of_pos hp, lookup_cons_ne _ _ _ _ (Ne.symm ha)]
        exact ih

/-! ### Location record lemmas -/

theorem locRecord_screen_x (stim : AttrSet) (pos : Int × Int) :
    (locRecord stim pos).lookup "screen_x" = some (.int pos.1) := by
  unfold locRecord
  rw [lookup_dictSet_ne _ _ _ _ (by decide), lookup_dictSet_self]

theorem locRecord_screen_y (stim : AttrSet) (pos : Int × Int) :
    (locRecord stim pos).lookup "screen_y" = some (.int pos.2) := by
  unfold locRecord
  rw [lookup_dictSet_self]

theorem locRecord_reserved_none (stim : AttrSet) (pos : Int × Int) (k : String)
    (h : k = "position" ∨ k = "text" ∨ k = "vis_delay") :
    (locRecord stim pos).lookup k = none := by
  have hk1 : k ≠ "screen_y" := by rcases h with h | h | h <;> subst h <;> decide
  have hk2 : k ≠ "screen_x" := by rcases h with h | h | h <;> subst h <;> decide
  unfold locRecord
  rw [lookup_dictSet_ne _ _ _ _ hk1, lookup_dictSet_ne _ _ _ _ hk2]
  unfold filteredAttrs
  apply lookup_filter_none
  intro v
  rcases h with h | h | h <;> subst h <;> rfl

/-! ### Scan step inversion lemmas -/

theorem attendSkip_false_of_not_skip (q : Query) (att : Option PyVal) (st : VisState)
    (stim : AttrSet) (h : scanStep q att st stim ≠ CandOutcome.skip) :
    attendSkip att st stim = false := by
  cases h1 : attendSkip att st stim with
  | false => rfl
  | true => exact absurd (by simp [scanStep, h1]) h

theorem textSkip_false_of_not_skip (q : Query) (att : Option PyVal) (st : VisState)
    (stim : AttrSet) (h : scanStep q att st stim ≠ CandOutcome.skip) :
    textSkip q stim = false := by
  have h1 : attendSkip att st stim = false := attendSkip_false_of_not_skip q att st stim h
  cases h2 : textSkip q stim with
  | false => rfl
  | true => exact absurd (by simp [scanStep, h1, h2]) h

theorem scanStep_eq_raise (q : Query) (att : Option PyVal) (st : VisState) (stim : AttrSet)
    (h1 : attendSkip att st stim = false) (h2 : textSkip q stim = false)
    (hp : extractPosition stim = none) : scanStep q att st stim = CandOutcome.raise := by
  simp [scanStep, h1, h2, hp]

theorem scanStep_matched_inv (q : Query) (att : Option PyVal) (st : VisState)
    (stim : AttrSet) (pos : Int × Int) (h : scanStep q att st stim = CandOutcome.matched pos) :
    attendSkip att st stim = false ∧ textSkip q stim = false ∧
      extractPosition stim = some pos ∧ coordSkip q.screen_x pos.1 = false ∧
      coordSkip q.screen_y pos.2 = false ∧ satisfies (filteredAttrs stim) q = true := by
  have hns : scanStep q att st stim ≠ CandOutcome.skip := by rw [h]; simp
  have h1 : attendSkip att st stim = false := attendSkip_false_of_not_skip q att st stim hns
  have h2 : textSkip q stim = false := textSkip_false_of_not_skip q att st stim hns
  cases hp : extractPosition stim with
  | none =>
    have hr := scanStep_eq_raise q att st stim h1 h2 hp
    rw [h] at hr
    exact absurd hr (by simp)
  | some p =>
    cases h3 : coordSkip q.screen_x p.1 with
    | true =>
      have hs : scanStep q att st stim = CandOutcome.skip := by simp [scanStep, h1, h2, hp, h3]
      exact absurd hs hns
    | false =>
      cases h4 : coordSkip q.screen_y p.2 with
      | true =>
        have hs : scanStep q att st stim = CandOutcome.skip := by
          simp [scanStep, h1, h2, hp, h3, h4]
        exact absurd hs hns
      | false =>
        cases h5 : satisfies (filteredAttrs stim) q with
        | false =>
          have hs : scanStep q att st stim = CandOutcome.passed := by
            simp [scanStep, h1, h2, hp, h3, h4, h5]
          rw [h] at hs
          exact absurd hs (by simp)
        | true =>
          have hm : scanStep q att st stim = CandOutcome.matched p := by
            simp [scanStep, h1, h2, hp, h3, h4, h5]
          rw [h] at hm
          have hpp : pos = p := by
            injection hm
          subst hpp
          exact ⟨h1, h2, rfl, h3, h4, rfl⟩

/-- The attended-false case: a candidate that is not skipped cannot be in the
attention history when the history is enabled. -/
theorem not_recent_of_attendSkip_false (f : PyVal) (st : VisState) (stim : AttrSet)
    (hf : isFalseLike f = true) (hfin : st.finst = true)
    (h : attendSkip (some f) st stim = false) : stim ∉ st.recent := by
  simp only [attendSkip, hf, if_true, hfin, Bool.true_and, decide_eq_false_iff_not] at h
  exact h

/-! ### Loop lemmas -/

theorem findLoop_ok_some_stim (q : Query) (f : PyVal) (st : VisState)
    (hf : isFalseLike f = true) (hfin : st.finst = true) :
    ∀ (store : List AttrSet) (acc : Option AttrSet) (l : Option AttrSet) (s : AttrSet),
      (∀ s0, acc = some s0 → s0 ∉ st.recent) →
      findLoop q (some f) st store acc = .ok (l, some s) → s ∉ st.recent := by
  intro store
  induction store with
  | nil =>
    intro acc l s hacc h
    simp only [findLoop, Except.ok.injEq, Prod.mk.injEq] at h
    exact hacc s h.2
  | cons stim rest ih =>
    intro acc l s hacc h
    simp only [findLoop] at h
    cases hstep : scanStep q (some f) st stim <;> rw [hstep] at h
    case skip => exact ih acc l s hacc h
    case raise => simp at h
    case passed =>
      refine ih (some stim) l s ?_ h
      intro s0 h0
      have hs0 : stim = s0 := by injection h0
      subst hs0
      exact not_recent_of_attendSkip_false f st stim hf hfin
        (attendSkip_false_of_not_skip q (some f) st stim (by rw [hstep]; simp))
    case matched pos =>
      simp only [Except.ok.injEq, Prod.mk.injEq, Option.some.injEq] at h
      have hs : stim = s := h.2
      subst hs
      exact not_recent_of_attendSkip_false f st stim hf hfin
        (attendSkip_false_of_not_skip q (some f) st stim (by rw [hstep]; simp))

theorem findLoop_found_record (q : Query) (att : Option PyVal) (st : VisState) :
    ∀ (store : List AttrSet) (acc : Option AttrSet) (found : AttrSet) (s2 : Option AttrSet),
      findLoop q att st store acc = .ok (some found, s2) →
      ∃ stim pos, scanStep q att st stim = CandOutcome.matched pos ∧
        found = locRecord stim pos ∧ s2 = some stim := by
  intro store
  induction store with
  | nil =>
    intro acc found s2 h
    simp only [findLoop, Except.ok.injEq, Prod.mk.injEq] at h
    exact absurd h.1 (by simp)
  | cons stim rest ih =>
    intro acc found s2 h
    simp only [findLoop] at h
    cases hstep : scanStep q att st stim <;> rw [hstep] at h
    case skip => exact ih acc found s2 h
    case raise => simp at h
    case passed => exact ih (some stim) found s2 h
    case matched pos =>
      simp only [Except.ok.injEq, Prod.mk.injEq, Option.some.injEq] at h
      exact ⟨stim, pos, hstep, h.1.symm, h.2.symm⟩

theorem findLoop_no_match (q : Query) (att : Option PyVal) (st : VisState) :
    ∀ (store : List AttrSet) (acc : Option AttrSet),
      (∀ s ∈ store, (scanStep q att st s).isMatched = false) →
      (∀ s ∈ store, (scanStep q att st s).isRaise = false) →
      findLoop q att st store acc = .ok (none, lastPassed q att st store acc) := by
  intro store
  induction store with
  | nil => intro acc _ _; rfl
  | cons stim rest ih =>
    intro acc hm hr
    simp only [findLoop, lastPassed, List.foldl_cons]
    cases hstep : scanStep q att st stim
    case skip =>
      exact ih acc (fun s hs => hm s (List.mem_cons_of_mem _ hs))
        (fun s hs => hr s (List.mem_cons_of_mem _ hs))
    case raise =>
      have := hr stim (List.mem_cons_self _ _)
      rw [hstep] at this
      exact absurd this (by simp [CandOutcome.isRaise])
    case passed =>
      exact ih (some stim) (fun s hs => hm s (List.mem_cons_of_mem _ hs))
        (fun s hs => hr s (List.mem_cons_of_mem _ hs))
    case matched pos =>
      have := hm stim (List.mem_cons_self _ _)
      rw [hstep] at this
      exact absurd this (by simp [CandOutcome.isMatched])

theorem findLoop_first_match (q : Query) (att : Option PyVal) (st : VisState)
    (a : AttrSet) (l2 : List AttrSet) (pos : Int × Int)
    (ha : scanStep q att st a = CandOutcome.matched pos) :
    ∀ (l1 : List AttrSet) (acc : Option AttrSet),
      (∀ e ∈ l1, (scanStep q att st e).isMatched = false) →
      (∀ e ∈ l1, (scanStep q att st e).isRaise = false) →
      findLoop q att st (l1 ++ a :: l2) acc = .ok (some (locRecord a pos), some a) := by
  intro l1
  induction l1 with
  | nil =>
    intro acc _ _
    rw [List.nil_append]
    simp only [findLoop]
    rw [ha]
  | cons e t ih =>
    intro acc hm hr
    rw [List.cons_append]
    simp only [findLoop]
    cases hstep : scanStep q att st e
    case skip =>
      exact ih acc (fun s hs => hm s (List.mem_cons_of_mem _ hs))
        (fun s hs => hr s (List.mem_cons_of_mem _ hs))
    case raise =>
      have := hr e (List.mem_cons_self _ _)
      rw [hstep] at this
      exact absurd this (by simp [CandOutcome.isRaise])
    case passed =>
      exact ih (some e) (fun s hs => hm s (List.mem_cons_of_mem _ hs))
        (fun s hs => hr s (List.mem_cons_of_mem _ hs))
    case matched p =>
      have := hm e (List.mem_cons_self _ _)
      rw [hstep] at this
      exact absurd this (by simp [CandOutcome.isMatched])

theorem findLoop_error (q : Query) (att : Option PyVal) (st : VisState)
    (s : AttrSet) (l2 : List AttrSet) (hs : scanStep q att st s = CandOutcome.raise) :
    ∀ (l1 : List AttrSet) (acc : Option AttrSet),
      (∀ e ∈ l1, (scanStep q att st e).isMatched = false) →
      findLoop q att st (l1 ++ s :: l2) acc = .error FindErr.positionError := by
  intro l1
  induction l1 with
  | nil =>
    intro acc _
    rw [List.nil_append]
    simp only [findLoop]
    rw [hs]
  | cons e t ih =>
    intro acc hm
    rw [List.cons_append]
    simp only [findLoop]
    cases hstep : scanStep q att st e
    case skip => exact ih acc (fun x hx => hm x (List.mem_cons_of_mem _ hx))
    case raise => rfl
    case passed => exact ih (some e) (fun x hx => hm x (List.mem_cons_of_mem _ hx))
    case matched p =>
      have := hm e (List.mem_cons_self _ _)
      rw [hstep] at this
      exact absurd this (by simp [CandOutcome.isMatched])

theorem findLoop_congr (q q2 : Query) (att : Option PyVal) (st : VisState)
    (hstep : ∀ stim, scanStep q att st stim = scanStep q2 att st stim) :
    ∀ (store : List AttrSet) (acc : Option AttrSet),
      findLoop q att st store acc = findLoop q2 att st store acc := by
  intro store
  induction store with
  | nil => intro acc; rfl
  | cons stim rest ih =>
    intro acc
    simp only [findLoop]
    rw [← hstep stim]
    cases hst : scanStep q att st stim
    case skip => exact ih acc
    case raise => rfl
    case passed => exact ih (some stim)
    case matched pos => rfl

/-! ### Coordinate filter lemmas -/

theorem pyParseInt_empty : pyParseInt "" = none := rfl

theorem coordSkip_none (x : Int) : coordSkip none x = false := rfl

theorem coordSkip_false_parse (s : String) (actual n : Int) (hp : pyParseInt s = some n)
    (h : coordSkip (some s) actual = false) : actual = n := by
  have h2 : (if s.isEmpty = true then false
      else match pyParseInt s with
        | some m => m != actual
        | none => false) = false := h
  clear h
  cases he : s.isEmpty with
  | true =>
    have hs : s = "" := (String.isEmpty_iff s).mp he
    subst hs
    rw [pyParseInt_empty] at hp
    exact Option.noConfusion hp
  | false =>
    rw [he] at h2
    simp only [Bool.false_eq_true, if_false] at h2
    rw [hp] at h2
    exact (bne_eq_false_iff_eq.mp h2).symm

theorem coordSkip_false_of_unparsable (slot : Option String)
    (h : (slot.all fun s => pyParseInt s == none) = true) (x : Int) :
    coordSkip slot x = false := by
  cases slot with
  | none => rfl
  | some s =>
    simp only [Option.all_some, beq_iff_eq] at h
    show (if s.isEmpty = true then false
      else match pyParseInt s with
        | some m => m != x
        | none => false) = false
    rw [h]
    cases s.isEmpty <;> simp

theorem scanStep_coord_congr (q q2 : Query) (att : Option PyVal) (st : VisState)
    (hv : q2.value = q.value) (ho : q2.others = q.others)
    (hcx : ∀ x, coordSkip q2.screen_x x = coordSkip q.screen_x x)
    (hcy : ∀ y, coordSkip q2.screen_y y = coordSkip q.screen_y y) (stim : AttrSet) :
    scanStep q att st stim = scanStep q2 att st stim := by
  unfold scanStep
  have ht : textSkip q2 stim = textSkip q stim := by unfold textSkip; rw [hv]
  have hs : satisfies (filteredAttrs stim) q2 = satisfies (filteredAttrs stim) q := by
    unfold satisfies; rw [ho]
  rw [ht, hs]
  simp only [hcx, hcy]

/-! ### Concrete inputs used by the witnesses and counterexamples -/

/-- An unconstrained query pattern: every slot empty. -/
def rqEmpty : RawQuery := ⟨.empty, .empty, .empty, []⟩

/-- A query pattern constraining only the open slot `color` to `red`. -/
def rqColor : RawQuery := ⟨.empty, .empty, .empty, [("color", .val "red")]⟩

/-- A query pattern with the concrete screen coordinates 5 and 7. -/
def rqXY : RawQuery := ⟨.empty, .val "5", .val "7", []⟩

/-- A query pattern whose screen_x constraint does not parse to an integer
while screen_y carries the genuine integer constraint 7. -/
def rqMixed : RawQuery := ⟨.empty, .val "abc", .val "7", []⟩

/-- Visual state with the attention history disabled. -/
def stEmpty : VisState := ⟨false, []⟩

/-- A stimulus at position (1, 1). -/
def stimP1 : AttrSet := [("position", .pair (.int 1) (.int 1))]

/-- A stimulus at position (2, 2). -/
def stimP2 : AttrSet := [("position", .pair (.int 2) (.int 2))]

/-- A stimulus at position (3, 3). -/
def stimP3 : AttrSet := [("position", .pair (.int 3) (.int 3))]

/-- A stimulus at position (5, 7). -/
def stimXY : AttrSet := [("position", .pair (.int 5) (.int 7))]

/-- A stimulus without a position entry. -/
def stimBad : AttrSet := [("color", .str "red")]

/-- Visual state with the history enabled and stimP1 recently attended. -/
def stRec : VisState := ⟨true, [stimP1]⟩

/-- A runner module agents.Foo defining only the class Bar. -/
def fooRunnerModule : PyModule := ⟨"agents.Foo", [("Bar", ⟨"Bar", "agents.Foo"⟩)]⟩

/-- An adapter module agents.FooAdapter defining the class FooAdapter. -/
def fooAdapterModule : PyModule :=
  ⟨"agents.FooAdapter", [("FooAdapter", ⟨"FooAdapter", "agents.FooAdapter"⟩)]⟩

/-- An import environment holding the two Foo modules. -/
def envFoo : ModuleEnv := [("agents.Foo", fooRunnerModule), ("agents.FooAdapter", fooAdapterModule)]

/-- A freshly constructed AgentTypeReturner with an empty cache. -/
def returnerFresh : AgentTypeReturner := ⟨"agents", []⟩

/-! ### Claim theorems -/

/-- C1 counterexample: with the query constraining the open slot color to red
and a store holding one stimulus without that attribute, no stimulus yields a
successful compatibility match, yet `patched_find` returns that stimulus as
the raw component: the result is (none, some stimulus), not (none, none). -/
theorem patched_find_nomatch_cex :
    (scanStep (resolveQuery [] rqColor) none stEmpty stimP1).isMatched = false ∧
    patched_find rqColor [] [] stEmpty [stimP1] = .ok (none, some stimP1) ∧
    some stimP1 ≠ (none : Option AttrSet) := by
  refine ⟨by decide, rfl, by decide⟩

/-- C1 (amended): if no stimulus in the store yields a successful
compatibility match and no scanned stimulus raises during position
extraction, `patched_find` returns none as the location record, and the raw
stimulus component is the last stimulus that passed the attention, text and
coordinate filters (none when no stimulus passed them; in particular the
empty store yields (none, none)). -/
theorem patched_find_no_match (rq : RawQuery) (vars : List (String × String))
    (ex : List (String × PyVal)) (st : VisState) (store : List AttrSet)
    (hm : ∀ s ∈ store,
      (scanStep (resolveQuery vars rq) (ex.lookup "attended") st s).isMatched = false)
    (hr : ∀ s ∈ store,
      (scanStep (resolveQuery vars rq) (ex.lookup "attended") st s).isRaise = false) :
    patched_find rq vars ex st store =
      .ok (none, lastPassed (resolveQuery vars rq) (ex.lookup "attended") st store none) :=
  findLoop_no_match _ _ _ store none hm hr

/-- C1 witness: the amended statement at a store with one filter-passing,
non-matching stimulus. -/
theorem patched_find_no_match_witness :
    patched_find rqColor [] [] stEmpty [stimP1] = .ok (none, some stimP1) :=
  patched_find_no_match rqColor [] [] stEmpty [stimP1] (by decide) (by decide)

/-- C2: when the extra tests constrain attended to a false-like value (False
or the string "False") and the attention history is enabled, any stimulus
referenced by the raw component of a non-none result of `patched_find` is
not in the history. -/
theorem patched_find_unattended (rq : RawQuery) (vars : List (String × String))
    (ex : List (String × PyVal)) (st : VisState) (store : List AttrSet)
    (f : PyVal) (l : Option AttrSet) (s : AttrSet)
    (hatt : ex.lookup "attended" = some f) (hf : isFalseLike f = true)
    (hfin : st.finst = true)
    (hres : patched_find rq vars ex st store = .ok (l, some s)) :
    s ∉ st.recent := by
  unfold patched_find at hres
  rw [hatt] at hres
  exact findLoop_ok_some_stim (resolveQuery vars rq) f st hf hfin store none l s
    (fun s0 h0 => Option.noConfusion h0) hres

/-- C2 witness: with stimP1 in the history, the unattended search returns
stimP2, which is not in the history. -/
theorem patched_find_unattended_witness : stimP2 ∉ stRec.recent :=
  patched_find_unattended rqEmpty [] [("attended", .bool false)] stRec [stimP1, stimP2]
    (.bool false) (some (locRecord stimP2 (2, 2))) stimP2 rfl rfl rfl rfl

/-- C3: when the resolved query screen coordinate slots parse to concrete
integers, any non-none location record returned by `patched_find` has
screen_x and screen_y exactly equal to those integers. -/
theorem patched_find_coord_exact (rq : RawQuery) (vars : List (String × String))
    (ex : List (String × PyVal)) (st : VisState) (store : List AttrSet)
    (sx sy : String) (x y : Int) (found : AttrSet) (s2 : Option AttrSet)
    (hsx : (resolveQuery vars rq).screen_x = some sx) (hx : pyParseInt sx = some x)
    (hsy : (resolveQuery vars rq).screen_y = some sy) (hy : pyParseInt sy = some y)
    (hres : patched_find rq vars ex st store = .ok (some found, s2)) :
    found.lookup "screen_x" = some (.int x) ∧ found.lookup "screen_y" = some (.int y) := by
  obtain ⟨stim, pos, hstep, hfound, -⟩ :=
    findLoop_found_record (resolveQuery vars rq) (ex.lookup "attended") st store none found s2 hres
  obtain ⟨-, -, -, hcx, hcy, -⟩ := scanStep_matched_inv _ _ _ _ _ hstep
  rw [hsx] at hcx
  rw [hsy] at hcy
  have hx1 : pos.1 = x := coordSkip_false_parse sx pos.1 x hx hcx
  have hy1 : pos.2 = y := coordSkip_false_parse sy pos.2 y hy hcy
  subst hfound
  constructor
  · rw [locRecord_screen_x, hx1]
  · rw [locRecord_screen_y, hy1]

/-- C3 witness: the query constraining screen coordinates to 5 and 7 matches
the stimulus at (5, 7) and the record carries exactly those integers. -/
theorem patched_find_coord_exact_witness :
    (locRecord stimXY (5, 7)).lookup "screen_x" = some (.int 5) ∧
    (locRecord stimXY (5, 7)).lookup "screen_y" = some (.int 7) :=
  patched_find_coord_exact rqXY [] [] stEmpty [stimXY] "5" "7" 5 7
    (locRecord stimXY (5, 7)) (some stimXY) rfl (by decide) rfl (by decide) rfl

/-- C4 counterexample: in the store [stimP1, stimP2, stimP3] all three
stimuli pass every filter and the compatibility test for the unconstrained
query; taking A = stimP2 and B = stimP3 (A preceding B) the result is derived
from stimP1, not from A. -/
theorem patched_find_first_cex :
    (scanStep (resolveQuery [] rqEmpty) none stEmpty stimP2).isMatched = true ∧
    (scanStep (resolveQuery [] rqEmpty) none stEmpty stimP3).isMatched = true ∧
    patched_find rqEmpty [] [] stEmpty [stimP1, stimP2, stimP3] =
      .ok (some (locRecord stimP1 (1, 1)), some stimP1) ∧
    locRecord stimP1 (1, 1) ≠ locRecord stimP2 (2, 2) ∧ stimP1 ≠ stimP2 := by
  refine ⟨by decide, by decide, rfl, by decide, by decide⟩

/-- C4 (amended): if no stimulus before A completes a compatibility match or
raises during position extraction, and A passes all filters and the
compatibility test, `patched_find` returns the result derived from A for
every continuation of the store: B and all later stimuli are never
considered. -/
theorem patched_find_first_match (rq : RawQuery) (vars : List (String × String))
    (ex : List (String × PyVal)) (st : VisState) (l1 : List AttrSet) (a : AttrSet)
    (l2 : List AttrSet) (pos : Int × Int)
    (hm : ∀ e ∈ l1,
      (scanStep (resolveQuery vars rq) (ex.lookup "attended") st e).isMatched = false)
    (hr : ∀ e ∈ l1,
      (scanStep (resolveQuery vars rq) (ex.lookup "attended") st e).isRaise = false)
    (ha : scanStep (resolveQuery vars rq) (ex.lookup "attended") st a =
      CandOutcome.matched pos) :
    patched_find rq vars ex st (l1 ++ a :: l2) = .ok (some (locRecord a pos), some a) :=
  findLoop_first_match _ _ _ a l2 pos ha l1 none hm hr

/-- C4 witness: stimP2 as the first compatible stimulus, with stimP3 behind
it never considered. -/
theorem patched_find_first_match_witness :
    patched_find rqEmpty [] [] stEmpty [stimP2, stimP3] =
      .ok (some (locRecord stimP2 (2, 2)), some stimP2) :=
  patched_find_first_match rqEmpty [] [] stEmpty [] stimP2 [stimP3] (2, 2)
    (by decide) (by decide) (by decide)

/-- C5: the location record of a successful `patched_find` never contains
the reserved attribute names position, text or vis_delay as keys; the
position is re-expressed only through the explicit integer screen_x and
screen_y entries. -/
theorem patched_find_no_reserved (rq : RawQuery) (vars : List (String × String))
    (ex : List (String × PyVal)) (st : VisState) (store : List AttrSet)
    (found : AttrSet) (s2 : Option AttrSet)
    (hres : patched_find rq vars ex st store = .ok (some found, s2)) :
    found.lookup "position" = none ∧ found.lookup "text" = none ∧
      found.lookup "vis_delay" = none := by
  obtain ⟨stim, pos, -, hfound, -⟩ :=
    findLoop_found_record (resolveQuery vars rq) (ex.lookup "attended") st store none found s2 hres
  subst hfound
  exact ⟨locRecord_reserved_none stim pos _ (Or.inl rfl),
    locRecord_reserved_none stim pos _ (Or.inr (Or.inl rfl)),
    locRecord_reserved_none stim pos _ (Or.inr (Or.inr rfl))⟩

/-- C5 witness: the record synthesized from stimP1 has none of the reserved
keys. -/
theorem patched_find_no_reserved_witness :
    (locRecord stimP1 (1, 1)).lookup "position" = none ∧
    (locRecord stimP1 (1, 1)).lookup "text" = none ∧
    (locRecord stimP1 (1, 1)).lookup "vis_delay" = none :=
  patched_find_no_reserved rqEmpty [] [] stEmpty [stimP1] (locRecord stimP1 (1, 1))
    (some stimP1) rfl

/-- C6: `patched_find` is deterministic: two invocations on equal query,
bindings, extra tests, visual state and store (fixed enumeration order)
yield value-equal results, the embedded scan being a pure function of these
inputs with no other state. -/
theorem patched_find_deterministic (rq1 rq2 : RawQuery) (v1 v2 : List (String × String))
    (e1 e2 : List (String × PyVal)) (st1 st2 : VisState) (s1 s2 : List AttrSet)
    (hq : rq1 = rq2) (hv : v1 = v2) (he : e1 = e2) (hst : st1 = st2) (hs : s1 = s2) :
    patched_find rq1 v1 e1 st1 s1 = patched_find rq2 v2 e2 st2 s2 := by
  subst hq hv he hst hs
  rfl

/-- C6 witness: two identical concrete invocations agree. -/
theorem patched_find_deterministic_witness :
    patched_find rqEmpty [] [] stEmpty [stimP1] = patched_find rqEmpty [] [] stEmpty [stimP1] :=
  patched_find_deterministic rqEmpty rqEmpty [] [] [] [] stEmpty stEmpty [stimP1] [stimP1]
    rfl rfl rfl rfl rfl

/-- C7: per slot, when the resolved screen_x (respectively screen_y) slot is
absent or does not parse to an integer, that coordinate filter imposes no
constraint on any candidate position and `patched_find` behaves exactly as
for the query with that one slot empty, the other slot untouched: the parse
failure for that slot is swallowed, no error is propagated to the caller, and
the scan continues with the remaining filters. -/
theorem patched_find_coord_lenient (rq : RawQuery) (vars : List (String × String))
    (ex : List (String × PyVal)) (st : VisState) (store : List AttrSet) :
    ((((resolveQuery vars rq).screen_x.all fun s => pyParseInt s == none) = true →
      (∀ x, coordSkip (resolveQuery vars rq).screen_x x = false) ∧
      patched_find rq vars ex st store =
        patched_find { rq with screen_x := QSlot.empty } vars ex st store) ∧
     (((resolveQuery vars rq).screen_y.all fun s => pyParseInt s == none) = true →
      (∀ y, coordSkip (resolveQuery vars rq).screen_y y = false) ∧
      patched_find rq vars ex st store =
        patched_find { rq with screen_y := QSlot.empty } vars ex st store)) := by
  constructor
  · intro hx
    refine ⟨coordSkip_false_of_unparsable _ hx, ?_⟩
    unfold patched_find
    exact findLoop_congr _ _ _ _
      (scanStep_coord_congr (resolveQuery vars rq)
        (resolveQuery vars { rq with screen_x := QSlot.empty }) _ _ rfl rfl
        (fun x => (coordSkip_none x).trans (coordSkip_false_of_unparsable _ hx x).symm)
        (fun y => rfl))
      store none
  · intro hy
    refine ⟨coordSkip_false_of_unparsable _ hy, ?_⟩
    unfold patched_find
    exact findLoop_congr _ _ _ _
      (scanStep_coord_congr (resolveQuery vars rq)
        (resolveQuery vars { rq with screen_y := QSlot.empty }) _ _ rfl rfl
        (fun x => rfl)
        (fun y => (coordSkip_none y).trans (coordSkip_false_of_unparsable _ hy y).symm))
      store none

/-- C7 witness: with the unparsable screen_x constraint "abc" next to the
genuine screen_y constraint 7, the x-failure is swallowed (no constraint, no
error) while the y-constraint stays in force, and the search runs exactly as
with screen_x empty. -/
theorem patched_find_coord_lenient_witness :
    (∀ x, coordSkip (resolveQuery [] rqMixed).screen_x x = false) ∧
    patched_find rqMixed [] [] stEmpty [stimXY] =
      patched_find { rqMixed with screen_x := QSlot.empty } [] [] stEmpty [stimXY] :=
  (patched_find_coord_lenient rqMixed [] [] stEmpty [stimXY]).1 (by decide)

/-- C8 counterexample: for the type name Foo the runner module imports and
the expected class Foo cannot be found in it, yet resolution does not raise:
it succeeds through the first-local-class fallback. -/
theorem resolve_agent_classes_fallback_cex :
    getattrMember fooRunnerModule "Foo" = none ∧
    resolve_agent_classes envFoo returnerFresh "Foo" =
      .ok ((⟨"Bar", "agents.Foo"⟩, ⟨"FooAdapter", "agents.FooAdapter"⟩),
        ⟨"agents", [("Foo", (⟨"Bar", "agents.Foo"⟩, ⟨"FooAdapter", "agents.FooAdapter"⟩))]⟩) :=
  ⟨rfl, rfl⟩

/-- C8 (amended): for a type name not in the cache, resolution raises
ValueError exactly when one of the two module imports fails, or when for one
of the imported modules neither the expected class nor any locally defined
fallback class can be found. -/
theorem resolve_agent_classes_error_iff (env : ModuleEnv) (self : AgentTypeReturner)
    (name : String) (hmiss : self.cache.lookup name = none) :
    (∃ e, resolve_agent_classes env self name = .error e) ↔
      (env.lookup (self.base_package ++ "." ++ name) = none ∨
       env.lookup (self.base_package ++ "." ++ name ++ "Adapter") = none ∨
       ∃ rm am, env.lookup (self.base_package ++ "." ++ name) = some rm ∧
         env.lookup (self.base_package ++ "." ++ name ++ "Adapter") = some am ∧
         (resolveClass rm name = none ∨ resolveClass am (name ++ "Adapter") = none)) := by
  unfold resolve_agent_classes
  rw [hmiss]
  cases hrm : env.lookup (self.base_package ++ "." ++ name) with
  | none => simp
  | some rm =>
    cases ham : env.lookup (self.base_package ++ "." ++ name ++ "Adapter") with
    | none => simp
    | some am =>
      cases hrc : resolveClass rm name with
      | none => simp [hrc]
      | some rc =>
        cases hac : resolveClass am (name ++ "Adapter") with
        | none => simp [hrc, hac]
        | some ac => simp [hrc, hac]

/-- C8 witness: with an empty import environment and an empty cache,
resolution raises. -/
theorem resolve_agent_classes_error_iff_witness :
    ∃ e, resolve_agent_classes [] returnerFresh "Foo" = .error e :=
  (resolve_agent_classes_error_iff [] returnerFresh "Foo" rfl).mpr (Or.inl rfl)

/-- C9: `build_level` raises ValueError exactly when a dimension is
non-positive or there are more agents than cells; in the error case the
function yields only the error value and no matrix, the checks preceding the
matrix construction and placement. -/
theorem build_level_error_iff {α : Type} (height width : Int) (agents : List α)
    (shuffle : List (Nat × Nat) → List (Nat × Nat)) :
    (∃ e, build_level height width agents shuffle = .error e) ↔
      (height ≤ 0 ∨ width ≤ 0 ∨ (agents.length : Int) > height * width) := by
  unfold build_level
  by_cases h1 : height ≤ 0 ∨ width ≤ 0
  · rw [if_pos h1]
    constructor
    · intro _
      rcases h1 with h | h
      · exact Or.inl h
      · exact Or.inr (Or.inl h)
    · intro _
      exact ⟨.invalidSize, rfl⟩
  · rw [if_neg h1]
    push_neg at h1
    by_cases h2 : (agents.length : Int) > height * width
    · rw [if_pos h2]
      constructor
      · intro _
        exact Or.inr (Or.inr h2)
      · intro _
        exact ⟨.capacityError, rfl⟩
    · rw [if_neg h2]
      constructor
      · rintro ⟨e, he⟩
        exact absurd he (by simp)
      · intro h3
        rcases h3 with h | h | h
        · omega
        · omega
        · exact absurd h h2

/-- C10: a candidate that survives the attention and text filters but lacks
an int-convertible position makes `patched_find` raise an uncaught exception
instead of skipping the candidate, even when a later stimulus in the store
would match, provided no earlier stimulus completes a match first. -/
theorem patched_find_position_error (rq : RawQuery) (vars : List (String × String))
    (ex : List (String × PyVal)) (st : VisState) (l1 : List AttrSet) (s : AttrSet)
    (l2 : List AttrSet)
    (hm : ∀ e ∈ l1,
      (scanStep (resolveQuery vars rq) (ex.lookup "attended") st e).isMatched = false)
    (hatt : attendSkip (ex.lookup "attended") st s = false)
    (htext : textSkip (resolveQuery vars rq) s = false)
    (hpos : extractPosition s = none) :
    patched_find rq vars ex st (l1 ++ s :: l2) = .error FindErr.positionError :=
  findLoop_error _ _ _ s l2 (scanStep_eq_raise _ _ _ s hatt htext hpos) l1 none hm

/-- C10 witness: the position-less stimulus raises even though the matching
stimP1 sits right behind it in the store. -/
theorem patched_find_position_error_witness :
    patched_find rqEmpty [] [] stEmpty [stimBad, stimP1] = .error FindErr.positionError :=
  patched_find_position_error rqEmpty [] [] stEmpty [] stimBad [stimP1]
    (by decide) (by decide) (by decide) (by decide)

end ActrSim
